import Mathlib

/-!
Shallow embedding of `src/bot.js` (OKXAutoSwapBot): the decision-and-execution
control loop of an unattended swap bot.  External effects (the Solana RPC
balance lookup, the OKX aggregator HTTP endpoints, transaction submission and
confirmation) are modelled as oracle values passed in explicitly; a JavaScript
function that can `throw` is modelled as returning `Except String α`, and a
`try/catch` of a caller as a `match` on that result.  JavaScript numbers holding
lamport / token amounts are modelled as `Int` (all amounts in play are exact
integers well inside the double-precision safe range).
-/

namespace Bot

/-- JavaScript `x || d` for an optionally-present numeric field (`Nat` case):
`undefined` and `0` are falsy, every other number is truthy.
Used for `config.maxDailyTrades || 50` (bot.js line 14). -/
def jsOrNat (x : Option Nat) (d : Nat) : Nat :=
  match x with
  | none => d
  | some n => if n = 0 then d else n

/-- JavaScript `x || d` for an optionally-present numeric field (`Int` case):
`undefined` and `0` are falsy.  Used for `config.minExpectedAmount || 0`
(bot.js line 163). -/
def jsOrInt (x : Option Int) (d : Int) : Int :=
  match x with
  | none => d
  | some n => if n = 0 then d else n

/-- JavaScript `x || d` for an optionally-present string field: `undefined`
and `""` are falsy.  Used for `config.slippage || "1"` (bot.js lines 70, 97). -/
def jsOrStr (x : Option String) (d : String) : String :=
  match x with
  | none => d
  | some s => if s = "" then d else s

/-- Value of a list of decimal digit characters. -/
def digitsToNat (ds : List Char) : Nat :=
  ds.foldl (fun acc c => acc * 10 + (c.toNat - 48)) 0

/-- JavaScript `parseInt(s)` restricted to decimal strings: skip leading
whitespace, read an optional sign and then the longest prefix of decimal
digits; `none` models `NaN` (no digits found).  The `0x` hex-prefix case of
`parseInt` is irrelevant here: the only inputs are decimal token-amount
strings from the aggregator (bot.js line 162). -/
def jsParseInt (s : String) : Option Int :=
  let cs := s.toList.dropWhile (fun c => c = ' ' ∨ c = '\t' ∨ c = '\n' ∨ c = '\r')
  match cs with
  | '-' :: rest =>
    let ds := rest.takeWhile Char.isDigit
    if ds.isEmpty then none else some (-(digitsToNat ds : Int))
  | '+' :: rest =>
    let ds := rest.takeWhile Char.isDigit
    if ds.isEmpty then none else some ((digitsToNat ds : Int))
  | _ =>
    let ds := cs.takeWhile Char.isDigit
    if ds.isEmpty then none else some ((digitsToNat ds : Int))

/-- The bot configuration object (`botConfig`, bot.js lines 250-259).  Fields
that the code reads through `||` defaults are `Option`-typed so that an
omitted field (`undefined`) is representable. -/
structure Config where
  fromToken : String
  toToken : String
  amount : Int
  minExpectedAmount : Option Int
  slippage : Option String
  checkInterval : Nat
  tradeCooldown : Nat
  maxDailyTrades : Option Nat
  deriving Repr, DecidableEq

/-- The concrete configuration shipped in bot.js lines 250-259. -/
def botConfig : Config :=
  { fromToken := "11111111111111111111111111111111"
    toToken := "pumpCmXqMfrsAkQ5r49WcJnRayYRqmXz6ae8H7H9Dfn"
    amount := 100000000
    minExpectedAmount := some 1000000
    slippage := some "2"
    checkInterval := 60000
    tradeCooldown := 300000
    maxDailyTrades := some 20 }

/-- A quote object (`response.data.data[0]` of the /quote endpoint).  Only the
fields the control flow reads are modelled; `toTokenAmount` is kept as the raw
string that bot.js parses with `parseInt` (line 162). -/
structure Quote where
  fromTokenAmount : String
  toTokenAmount : String
  deriving Repr, DecidableEq

/-- Outcome of one HTTP exchange with the aggregator, as seen by the axios
caller: either a transport-level failure (axios throws) or a response envelope
`decoding to` a status code, a message and a data array. -/
inductive HttpResult (α : Type) where
  | netError (msg : String)
  | response (code : String) (msg : String) (data : List α)
  deriving Repr, DecidableEq

/-- Whether an `Except` result is the thrown/error case. -/
def isError : Except String α → Bool
  | .error _ => true
  | .ok _ => false

/-- JavaScript `a[0]`: `undefined` (here `none`) when the array is empty. -/
def jsHead (xs : List α) : Option α :=
  xs.get? 0

/-- `checkBalance` (bot.js lines 49-59): queries the RPC balance; the
`try/catch` swallows every lookup failure and returns `0`.  The oracle `r` is
the outcome of `connection.getBalance`. -/
def checkBalance (r : Except String Int) : Int :=
  match r with
  | .ok balance => balance
  | .error _ => 0

/-- The query parameters bot.js sends to the aggregator /quote endpoint
(bot.js lines 64-76). -/
structure QuoteRequest where
  chainId : String
  fromTokenAddress : String
  toTokenAddress : String
  amount : String
  slippage : String
  deriving Repr, DecidableEq

/-- `getSwapQuote` (bot.js lines 62-87): always builds the request from its
arguments (there is no validation of `amount`), issues it, and then either
returns `response.data.data[0]` when the envelope code is "0" or throws.
The returned pair is (the request it sent, the thrown-or-returned outcome);
`.ok none` is the JavaScript value `undefined` that `data[0]` yields on an
empty data array. -/
def getSwapQuote (slippage : Option String) (fromToken toToken : String)
    (amount : Int) (http : HttpResult Quote) :
    QuoteRequest × Except String (Option Quote) :=
  ({ chainId := "501"
     fromTokenAddress := fromToken
     toTokenAddress := toToken
     amount := toString amount
     slippage := jsOrStr slippage "1" },
   match http with
   | .netError m => .error m
   | .response code msg data =>
     if code = "0" then .ok (jsHead data)
     else .error ("API Error: " ++ msg))

/-- Result characterization used to state that the outcome of `getSwapQuote`
depends only on the HTTP exchange, never on the amount argument. -/
def quoteOutcome (http : HttpResult Quote) : Except String (Option Quote) :=
  match http with
  | .netError m => .error m
  | .response code msg data =>
    if code = "0" then .ok (jsHead data)
    else .error ("API Error: " ++ msg)

/-- A network interaction attempted by `shouldTrade`: the balance RPC query,
or a quote request to the aggregator. -/
inductive NetCall where
  | balanceQuery
  | quoteRequest (r : QuoteRequest)
  deriving Repr, DecidableEq

/-- Oracle outcomes for the external calls one `shouldTrade` evaluation can
make: the balance RPC result and the /quote HTTP exchange. -/
structure Env where
  balanceResult : Except String Int
  quoteHttp : HttpResult Quote
  deriving Repr

/-- `shouldTrade` (bot.js lines 138-177), returning the decision together
with the list of network calls it attempted, in order.  The body is wrapped
in `try/catch { return false }`, so every throwing sub-call is matched and
mapped to a `false` decision.  `0.01 * 1000000000` evaluates to exactly
`10000000` in IEEE-754 double arithmetic (bot.js line 148). -/
def shouldTrade (c : Config) (maxDailyTrades tradeCount : Nat) (env : Env) :
    Bool × List NetCall :=
  if tradeCount ≥ maxDailyTrades then (false, [])
  else
    let balance := checkBalance env.balanceResult
    let requiredBalance := c.amount + 10000000
    if balance < requiredBalance then (false, [NetCall.balanceQuery])
    else
      let req := (getSwapQuote c.slippage c.fromToken c.toToken c.amount env.quoteHttp).1
      let result := (getSwapQuote c.slippage c.fromToken c.toToken c.amount env.quoteHttp).2
      let calls := [NetCall.balanceQuery, NetCall.quoteRequest req]
      match result with
      | .error _ => (false, calls)
      | .ok none => (false, calls)
      | .ok (some quote) =>
        match jsParseInt quote.toTokenAmount with
        | none => (false, calls)
        | some expectedPump =>
          let minExpected := jsOrInt c.minExpectedAmount 0
          (decide (expectedPump ≥ minExpected), calls)

/-- The data object of the /swap endpoint response (bot.js line 111): the
base64 transaction payload, plus whether `Transaction.from` succeeds on it
(deserialization of a malformed payload throws). -/
structure TxData where
  tx : String
  txValid : Bool
  deriving Repr, DecidableEq

/-- Oracle outcomes for the external calls of one trade attempt: the fresh
quote `performSwap` fetches, the /swap build exchange, the raw-transaction
submission, and the `value.err` field of the confirmation. -/
structure SwapEnv where
  quoteHttp : HttpResult Quote
  swapHttp : HttpResult TxData
  sendResult : Except String String
  confirmErr : Option String
  deriving Repr

/-- `executeSwap` (bot.js lines 90-135): POST /swap, throw unless code "0",
deserialize `data[0].tx`, sign and submit, await confirmation, throw when
`confirmation.value.err` is set, else return the signature.  The request body
built from `quoteData` does not influence control flow and is not reified;
`quoteData` is kept as an argument for fidelity to the source signature. -/
def executeSwap (_quoteData : Quote) (e : SwapEnv) : Except String String :=
  match e.swapHttp with
  | .netError m => .error m
  | .response code msg data =>
    if code ≠ "0" then .error ("Swap API Error: " ++ msg)
    else
      match jsHead data with
      | none => .error "TypeError: tx data undefined"
      | some txData =>
        if ¬txData.txValid then .error "Transaction deserialize failed"
        else
          match e.sendResult with
          | .error m => .error m
          | .ok signature =>
            match e.confirmErr with
            | some err => .error ("Transaction failed: " ++ err)
            | none => .ok signature

/-- `performSwap` (bot.js lines 180-203): fetch a fresh quote, execute the
swap, and only after `executeSwap` returns increment `tradeCount`
(`this.tradeCount++`, line 194).  Every failure is logged and re-thrown, so
the result is the incremented count paired with the signature on success, and
the propagated error otherwise. -/
def performSwap (c : Config) (tradeCount : Nat) (e : SwapEnv) :
    Except String (String × Nat) :=
  match (getSwapQuote c.slippage c.fromToken c.toToken c.amount e.quoteHttp).2 with
  | .error m => .error m
  | .ok none => .error "TypeError: quote undefined"
  | .ok (some quote) =>
    match executeSwap quote e with
    | .error m => .error m
    | .ok signature => .ok (signature, tradeCount + 1)

/-- The mutable session state owned by the loop: `this.tradeCount` and
`this.isRunning` (bot.js lines 12-13). -/
structure LoopState where
  tradeCount : Nat
  isRunning : Bool
  deriving Repr, DecidableEq

/-- Oracles and externally-injected stop requests for one iteration of the
`while (this.isRunning)` body.  `stop()` (bot.js lines 238-241) can run at
any `await` suspension point; the three flags say whether a stop request is
delivered during the `shouldTrade` evaluation, during the trade attempt, or
during the sleeps of this tick. -/
structure TickEnv where
  decideEnv : Env
  swapEnv : SwapEnv
  stopDuringEval : Bool
  stopDuringTrade : Bool
  stopDuringSleep : Bool
  deriving Repr

/-- Observable outcome of one loop-body iteration: the successor state, the
sleep durations performed in order (ms), and whether a trade attempt began /
succeeded. -/
structure TickResult where
  state : LoopState
  sleeps : List Nat
  tradeAttempted : Bool
  tradeSucceeded : Bool
  deriving Repr, DecidableEq

/-- One iteration of the body of the `while (this.isRunning)` loop of `start`
(bot.js lines 210-234), entered with state `s`.  The body never re-reads
`isRunning`: after `shouldTrade`, a true decision leads straight into
`performSwap`.  On a successful swap it sleeps `tradeCooldown` then
`checkInterval`; a thrown swap failure reaches the catch block, which sleeps
the fixed 30000 ms recovery delay (line 232); a false decision sleeps only
`checkInterval`.  `shouldTrade` itself never throws, so `performSwap` is the
only throwing statement the catch can observe.  A stop request delivered at
any suspension point clears `isRunning` for the next `while` check. -/
def tickBody (c : Config) (s : LoopState) (e : TickEnv) : TickResult :=
  let maxDailyTrades := jsOrNat c.maxDailyTrades 50
  let decision := (shouldTrade c maxDailyTrades s.tradeCount e.decideEnv).1
  let running1 := s.isRunning && !e.stopDuringEval
  if decision then
    match performSwap c s.tradeCount e.swapEnv with
    | .ok (_signature, tradeCount1) =>
      { state := { tradeCount := tradeCount1
                   isRunning := running1 && !e.stopDuringTrade && !e.stopDuringSleep }
        sleeps := [c.tradeCooldown, c.checkInterval]
        tradeAttempted := true
        tradeSucceeded := true }
    | .error _ =>
      { state := { tradeCount := s.tradeCount
                   isRunning := running1 && !e.stopDuringTrade && !e.stopDuringSleep }
        sleeps := [30000]
        tradeAttempted := true
        tradeSucceeded := false }
  else
    { state := { tradeCount := s.tradeCount
                 isRunning := running1 && !e.stopDuringSleep }
      sleeps := [c.checkInterval]
      tradeAttempted := false
      tradeSucceeded := false }

/-- The `while (this.isRunning)` loop of `start` (bot.js lines 210-234), run
against a finite schedule of tick oracles: the condition is checked before
every iteration, and the loop stops as soon as it observes `isRunning`
false. -/
def run (c : Config) (s : LoopState) (es : List TickEnv) : LoopState :=
  match es with
  | [] => s
  | e :: rest =>
    if s.isRunning then run c (tickBody c s e).state rest else s

/-- Number of trade attempts the loop starts while running schedule `es`
from state `s`. -/
def runAttempts (c : Config) (s : LoopState) (es : List TickEnv) : Nat :=
  match es with
  | [] => 0
  | e :: rest =>
    if s.isRunning then
      (if (tickBody c s e).tradeAttempted then 1 else 0) +
        runAttempts c (tickBody c s e).state rest
    else 0

/-- State at entry of `start` (bot.js lines 206-208): `tradeCount = 0` from
the constructor, `isRunning` set true. -/
def initState : LoopState :=
  { tradeCount := 0, isRunning := true }

/-- Whether a list of network calls contains a quote request to the
aggregator. -/
def attemptedQuote (calls : List NetCall) : Bool :=
  calls.any fun call =>
    match call with
    | .quoteRequest _ => true
    | .balanceQuery => false

/-! Concrete fixtures used to instantiate the theorems below on explicit
inputs.  `goodQuote` mirrors the scenario of spec §8: a quote whose
destination amount `2000000` clears the configured minimum `1000000`. -/

/-- A quote whose destination amount qualifies under `botConfig`. -/
def goodQuote : Quote :=
  { fromTokenAmount := "100000000", toTokenAmount := "2000000" }

/-- Oracles for a fully healthy evaluation: ample balance, qualifying
quote. -/
def goodEnv : Env :=
  { balanceResult := .ok 200000000
    quoteHttp := .response "0" "success" [goodQuote] }

/-- Oracles where the balance is below `amount + fee margin` but the quote
would qualify. -/
def lowBalanceEnv : Env :=
  { balanceResult := .ok 5
    quoteHttp := .response "0" "success" [goodQuote] }

/-- Oracles where the balance RPC lookup fails. -/
def balanceFailEnv : Env :=
  { balanceResult := .error "network error"
    quoteHttp := .response "0" "success" [goodQuote] }

/-- A well-formed /swap build payload. -/
def goodTxData : TxData :=
  { tx := "AAEC", txValid := true }

/-- Oracles for a fully successful trade attempt. -/
def goodSwapEnv : SwapEnv :=
  { quoteHttp := .response "0" "success" [goodQuote]
    swapHttp := .response "0" "success" [goodTxData]
    sendResult := .ok "5sigX"
    confirmErr := none }

/-- Oracles for a trade attempt whose broadcast is rejected. -/
def failSwapEnv : SwapEnv :=
  { quoteHttp := .response "0" "success" [goodQuote]
    swapHttp := .response "0" "success" [goodTxData]
    sendResult := .error "blockhash not found"
    confirmErr := none }

/-- A tick in which everything succeeds and no stop request arrives. -/
def goodTickEnv : TickEnv :=
  { decideEnv := goodEnv
    swapEnv := goodSwapEnv
    stopDuringEval := false
    stopDuringTrade := false
    stopDuringSleep := false }

/-- A tick in which a stop request is delivered while `shouldTrade` is being
awaited, and the trade itself would succeed. -/
def stopMidEvalTickEnv : TickEnv :=
  { decideEnv := goodEnv
    swapEnv := goodSwapEnv
    stopDuringEval := true
    stopDuringTrade := false
    stopDuringSleep := false }

/-- A tick whose trade attempt fails at broadcast. -/
def failTickEnv : TickEnv :=
  { decideEnv := goodEnv
    swapEnv := failSwapEnv
    stopDuringEval := false
    stopDuringTrade := false
    stopDuringSleep := false }

/-- The shipped configuration with `minExpectedAmount` omitted. -/
def noMinConfig : Config :=
  { botConfig with minExpectedAmount := none }

/-- A session state on which `stop()` has already run. -/
def stoppedState : LoopState :=
  { tradeCount := 3, isRunning := false }

/-! Helper lemmas shared by the claim theorems. -/

theorem shouldTrade_true_lt (c : Config) (m tc : Nat) (env : Env)
    (h : (shouldTrade c m tc env).1 = true) : tc < m := by
  by_contra hge
  push_neg at hge
  unfold shouldTrade at h
  rw [if_pos hge] at h
  simp at h

theorem performSwap_ok_succ (c : Config) (tc : Nat) (e : SwapEnv)
    (signature : String) (tc1 : Nat)
    (h : performSwap c tc e = .ok (signature, tc1)) : tc1 = tc + 1 := by
  unfold performSwap at h
  split at h
  · exact absurd h (by simp)
  · exact absurd h (by simp)
  · split at h
    · exact absurd h (by simp)
    · simp only [Except.ok.injEq, Prod.mk.injEq] at h
      omega

theorem tickBody_tradeCount_le (c : Config) (s : LoopState) (e : TickEnv)
    (h : s.tradeCount ≤ jsOrNat c.maxDailyTrades 50) :
    (tickBody c s e).state.tradeCount ≤ jsOrNat c.maxDailyTrades 50 := by
  unfold tickBody
  by_cases hd : (shouldTrade c (jsOrNat c.maxDailyTrades 50) s.tradeCount e.decideEnv).1 = true
  · have hlt := shouldTrade_true_lt _ _ _ _ hd
    simp only [hd, if_true]
    cases hp : performSwap c s.tradeCount e.swapEnv with
    | error msg => simpa using h
    | ok v =>
      obtain ⟨signature, tc1⟩ := v
      have := performSwap_ok_succ c s.tradeCount e.swapEnv signature tc1 hp
      simp only []
      omega
  · simp only [Bool.not_eq_true] at hd
    simp only [hd, Bool.false_eq_true, if_false]
    exact h

theorem run_tradeCount_le (c : Config) (es : List TickEnv) (s : LoopState)
    (h : s.tradeCount ≤ jsOrNat c.maxDailyTrades 50) :
    (run c s es).tradeCount ≤ jsOrNat c.maxDailyTrades 50 := by
  induction es generalizing s with
  | nil => simpa [run] using h
  | cons e rest ih =>
    unfold run
    by_cases hr : s.isRunning = true
    · rw [if_pos hr]
      exact ih _ (tickBody_tradeCount_le c s e h)
    · rw [if_neg hr]
      exact h

theorem shouldTrade_balance_error_false (c : Config) (m tc : Nat) (env : Env)
    (msg : String) (hb : env.balanceResult = Except.error msg)
    (hamt : 0 ≤ c.amount) :
    (shouldTrade c m tc env).1 = false := by
  unfold shouldTrade
  split
  · rfl
  · dsimp only
    rw [if_pos]
    rw [hb]
    simp only [checkBalance]
    omega

theorem shouldTrade_quote_error_false (c : Config) (m tc : Nat) (env : Env)
    (hq : isError (getSwapQuote c.slippage c.fromToken c.toToken c.amount env.quoteHttp).2
      = true) :
    (shouldTrade c m tc env).1 = false := by
  unfold shouldTrade
  split
  · rfl
  · dsimp only
    split
    · rfl
    · split
      · rfl
      · rfl
      · rename_i heq
        rw [heq] at hq
        simp [isError] at hq

/-! Claim theorems. -/

/-- C1: In every reachable state of one continuous run of the control loop,
the `tradeCount` of the session never exceeds `maxDailyTrades`: starting from the
constructor state (`tradeCount = 0`) and running any finite schedule of tick
oracles, the resulting trade count is at most the configured daily limit,
because a trade is only attempted when `shouldTrade` returned true (which
requires `tradeCount < maxDailyTrades`) and `tradeCount` is only incremented
after a successful trade. -/
theorem trade_count_never_exceeds_limit (c : Config) (es : List TickEnv) :
    (run c initState es).tradeCount ≤ jsOrNat c.maxDailyTrades 50 :=
  run_tradeCount_le c es initState (Nat.zero_le _)

/-- C2: whenever `tradeCount ≥ maxDailyTrades`, `shouldTrade` returns false
with an empty list of attempted network calls: neither the balance query nor
the quote request is issued. -/
theorem limit_reached_no_trade_no_network (c : Config) (m tc : Nat) (env : Env)
    (h : tc ≥ m) :
    shouldTrade c m tc env = (false, []) := by
  unfold shouldTrade
  rw [if_pos h]

/-- Witness for C2: with both the count and the limit equal to 5, and oracles
under which the quote would otherwise qualify, `shouldTrade` is false with no
network call. -/
theorem limit_reached_no_trade_no_network_witness :
    (5:Nat) ≥ 5 ∧ shouldTrade botConfig 5 5 goodEnv = (false, []) :=
  ⟨by decide, limit_reached_no_trade_no_network botConfig 5 5 goodEnv (by decide)⟩

/-- C3: `shouldTrade` never raises.  In this embedding every throwing
sub-call is an explicit `Except` value and `shouldTrade` is a total function
into `Bool × List NetCall`, so no error propagates to the caller by
construction; this theorem states the substance of the claim: for every
injected failure of the balance lookup or of the quote lookup, the decision
is false (the configured amount being non-negative, as `botConfig.amount`
is). -/
theorem shouldTrade_fail_safe (c : Config) (m tc : Nat) (env : Env)
    (hamt : 0 ≤ c.amount)
    (hfail : isError env.balanceResult = true ∨
      isError (getSwapQuote c.slippage c.fromToken c.toToken c.amount env.quoteHttp).2 = true) :
    (shouldTrade c m tc env).1 = false := by
  rcases hfail with hb | hq
  · cases hr : env.balanceResult with
    | error msg => exact shouldTrade_balance_error_false c m tc env msg hr hamt
    | ok b => rw [hr] at hb; simp [isError] at hb
  · exact shouldTrade_quote_error_false c m tc env hq

/-- Witness for C3: with the shipped configuration and a failing balance
RPC, the decision is false. -/
theorem shouldTrade_fail_safe_witness :
    (0:Int) ≤ botConfig.amount ∧ isError balanceFailEnv.balanceResult = true ∧
    (shouldTrade botConfig 20 0 balanceFailEnv).1 = false :=
  ⟨by decide, by decide,
    shouldTrade_fail_safe botConfig 20 0 balanceFailEnv (by decide) (Or.inl (by decide))⟩

/-- C4: a trade attempt that succeeds increments `tradeCount` by exactly 1
and is followed by the full cooldown sleep (then the interval sleep); a
trade attempt that fails leaves `tradeCount` unchanged and is followed only
by the fixed 30000 ms backoff, which is distinct from the full cooldown of
the shipped configuration. -/
theorem tick_trade_bookkeeping (c : Config) (s : LoopState) (e : TickEnv)
    (h : (tickBody c s e).tradeAttempted = true) :
    ((tickBody c s e).tradeSucceeded = true →
      (tickBody c s e).state.tradeCount = s.tradeCount + 1 ∧
      (tickBody c s e).sleeps = [c.tradeCooldown, c.checkInterval]) ∧
    ((tickBody c s e).tradeSucceeded = false →
      (tickBody c s e).state.tradeCount = s.tradeCount ∧
      (tickBody c s e).sleeps = [30000]) ∧
    botConfig.tradeCooldown ≠ 30000 := by
  unfold tickBody at h ⊢
  by_cases hd : (shouldTrade c (jsOrNat c.maxDailyTrades 50) s.tradeCount e.decideEnv).1 = true
  · simp only [hd, if_true] at h ⊢
    cases hp : performSwap c s.tradeCount e.swapEnv with
    | error msg => simp [botConfig]
    | ok v =>
      obtain ⟨signature, tc1⟩ := v
      have := performSwap_ok_succ c s.tradeCount e.swapEnv signature tc1 hp
      simp [botConfig]
      omega
  · simp only [Bool.not_eq_true] at hd
    simp [hd] at h

/-- Witness for C4: a concrete successful tick from the initial state under
the shipped configuration. -/
theorem tick_trade_bookkeeping_witness :
    (tickBody botConfig initState goodTickEnv).tradeAttempted = true ∧
    (((tickBody botConfig initState goodTickEnv).tradeSucceeded = true →
      (tickBody botConfig initState goodTickEnv).state.tradeCount = initState.tradeCount + 1 ∧
      (tickBody botConfig initState goodTickEnv).sleeps = [botConfig.tradeCooldown, botConfig.checkInterval]) ∧
    ((tickBody botConfig initState goodTickEnv).tradeSucceeded = false →
      (tickBody botConfig initState goodTickEnv).state.tradeCount = initState.tradeCount ∧
      (tickBody botConfig initState goodTickEnv).sleeps = [30000]) ∧
    botConfig.tradeCooldown ≠ 30000) :=
  ⟨by decide, tick_trade_bookkeeping botConfig initState goodTickEnv (by decide)⟩

/-- C5: for every balance strictly below the configured trade amount plus
the reserved fee margin of 10000000 lamports, `shouldTrade` returns false
and never reaches the quote step: no quote request appears among its
attempted network calls (even though the quote oracle might qualify). -/
theorem low_balance_no_trade_no_quote (c : Config) (m tc : Nat) (env : Env)
    (h : checkBalance env.balanceResult < c.amount + 10000000) :
    (shouldTrade c m tc env).1 = false ∧
    attemptedQuote (shouldTrade c m tc env).2 = false := by
  unfold shouldTrade
  split
  · exact ⟨rfl, rfl⟩
  · rw [if_pos h]
    exact ⟨rfl, rfl⟩

/-- Witness for C5: balance 5 lamports against the shipped configuration,
with a quote oracle that would qualify. -/
theorem low_balance_no_trade_no_quote_witness :
    checkBalance lowBalanceEnv.balanceResult < botConfig.amount + 10000000 ∧
    ((shouldTrade botConfig 20 0 lowBalanceEnv).1 = false ∧
      attemptedQuote (shouldTrade botConfig 20 0 lowBalanceEnv).2 = false) :=
  ⟨by decide, low_balance_no_trade_no_quote botConfig 20 0 lowBalanceEnv (by decide)⟩

/-- C6 counterexample: the claim says a failing balance lookup is surfaced
as a `LedgerUnavailable` failure and never treated as a zero balance; in the
code `checkBalance` catches the RPC error and returns `0`, which is
indistinguishable from an actual zero balance. -/
theorem balance_failure_reads_zero_cex :
    checkBalance (Except.error "network error") = checkBalance (Except.ok 0) ∧
    checkBalance (Except.ok 0) = 0 :=
  ⟨rfl, rfl⟩

/-- C6 amended: when the balance lookup fails, `checkBalance` swallows the
error and returns `0` — a zero balance, not a distinguished failure — and
`shouldTrade` consequently still reaches a false decision (the configured
amount being non-negative), preserving the fail-safe outcome. -/
theorem balance_failure_zero_fail_safe (c : Config) (m tc : Nat) (env : Env)
    (msg : String) (hb : env.balanceResult = Except.error msg)
    (hamt : 0 ≤ c.amount) :
    checkBalance env.balanceResult = 0 ∧ (shouldTrade c m tc env).1 = false := by
  constructor
  · rw [hb]
    rfl
  · exact shouldTrade_balance_error_false c m tc env msg hb hamt

/-- Witness for amended C6: the failing-balance oracle under the shipped
configuration. -/
theorem balance_failure_zero_fail_safe_witness :
    balanceFailEnv.balanceResult = Except.error "network error" ∧
    (0:Int) ≤ botConfig.amount ∧
    (checkBalance balanceFailEnv.balanceResult = 0 ∧
      (shouldTrade botConfig 20 0 balanceFailEnv).1 = false) :=
  ⟨rfl, by decide,
    balance_failure_zero_fail_safe botConfig 20 0 balanceFailEnv "network error" rfl (by decide)⟩

/-- C7 counterexample: a stop request delivered while `shouldTrade` is being
awaited does not stop the current tick from trading — the body of the
`while` loop never re-reads `isRunning` between the decision and
`performSwap`, so the trade attempt still begins in that tick. -/
theorem stop_mid_eval_trade_still_begins_cex :
    stopMidEvalTickEnv.stopDuringEval = true ∧
    (tickBody botConfig initState stopMidEvalTickEnv).tradeAttempted = true := by
  decide

/-- C7 amended: the stop flag is checked only at tick boundaries (the
`while (this.isRunning)` condition): once `isRunning` is observed false at
the start of a tick, the loop performs no further tick and starts no trade
attempt; a stop delivered mid-evaluation, however, does not prevent the
trade of the current tick. -/
theorem stop_checked_at_tick_start (c : Config) (s : LoopState)
    (es : List TickEnv) (h : s.isRunning = false) :
    run c s es = s ∧ runAttempts c s es = 0 := by
  cases es with
  | nil => exact ⟨rfl, rfl⟩
  | cons e rest =>
    unfold run runAttempts
    simp [h]

/-- Witness for amended C7: from a stopped state, one scheduled tick does
nothing. -/
theorem stop_checked_at_tick_start_witness :
    stoppedState.isRunning = false ∧
    (run botConfig stoppedState [goodTickEnv] = stoppedState ∧
      runAttempts botConfig stoppedState [goodTickEnv] = 0) :=
  ⟨rfl, stop_checked_at_tick_start botConfig stoppedState [goodTickEnv] rfl⟩

/-- C9 counterexample: the claim says `getSwapQuote` rejects a non-positive
amount before contacting the aggregator; in the code there is no validation:
with amount `-5` the request is still built (carrying `amount = "-5"`) and a
successful service response is returned as a quote. -/
theorem quote_no_amount_validation_cex :
    (getSwapQuote (some "2") "srcToken" "dstToken" (-5)
      (HttpResult.response "0" "success" [goodQuote])).2 = Except.ok (some goodQuote) ∧
    (getSwapQuote (some "2") "srcToken" "dstToken" (-5)
      (HttpResult.response "0" "success" [goodQuote])).1.amount = "-5" :=
  ⟨rfl, by decide⟩

/-- C9 amended: `getSwapQuote` performs no validation of its amount
argument: for every amount (positive or not) it issues the request with the
decimal string of the amount, and its outcome is determined solely by the HTTP
exchange — transport failure or non-"0" envelope code throws, a "0" code
returns `data[0]`. -/
theorem getSwapQuote_no_validation (slippage : Option String)
    (fromToken toToken : String) (amount : Int) (http : HttpResult Quote) :
    (getSwapQuote slippage fromToken toToken amount http).1.amount = toString amount ∧
    (getSwapQuote slippage fromToken toToken amount http).2 = quoteOutcome http := by
  constructor
  · rfl
  · cases http <;> rfl

/-- C10: if the configuration omits `minExpectedAmount`, the threshold
`config.minExpectedAmount || 0` defaults to 0, so once the trade-limit and
balance checks pass and the destination amount of the quote parses to a
non-negative integer, `shouldTrade` decides true. -/
theorem omitted_min_expected_defaults_zero (c : Config) (m tc : Nat)
    (env : Env) (quote : Quote) (n : Int)
    (hmin : c.minExpectedAmount = none)
    (hm : tc < m)
    (hb : ¬ checkBalance env.balanceResult < c.amount + 10000000)
    (hq : (getSwapQuote c.slippage c.fromToken c.toToken c.amount env.quoteHttp).2 =
      Except.ok (some quote))
    (hp : jsParseInt quote.toTokenAmount = some n)
    (hn : 0 ≤ n) :
    jsOrInt c.minExpectedAmount 0 = 0 ∧ (shouldTrade c m tc env).1 = true := by
  constructor
  · rw [hmin]
    rfl
  · unfold shouldTrade
    rw [if_neg (by omega)]
    dsimp only
    rw [if_neg hb]
    simp only [hq, hp, hmin]
    simp [jsOrInt]
    omega

/-- Witness for C10: the shipped configuration with `minExpectedAmount`
omitted accepts the 2000000-token quote. -/
theorem omitted_min_expected_defaults_zero_witness :
    noMinConfig.minExpectedAmount = none ∧
    (0:Nat) < 20 ∧
    ¬ checkBalance goodEnv.balanceResult < noMinConfig.amount + 10000000 ∧
    (getSwapQuote noMinConfig.slippage noMinConfig.fromToken noMinConfig.toToken
      noMinConfig.amount goodEnv.quoteHttp).2 = Except.ok (some goodQuote) ∧
    jsParseInt goodQuote.toTokenAmount = some 2000000 ∧
    (0:Int) ≤ 2000000 ∧
    (jsOrInt noMinConfig.minExpectedAmount 0 = 0 ∧
      (shouldTrade noMinConfig 20 0 goodEnv).1 = true) :=
  ⟨rfl, by decide, by decide, rfl, by decide, by decide,
    omitted_min_expected_defaults_zero noMinConfig 20 0 goodEnv goodQuote 2000000
      rfl (by decide) (by decide) rfl (by decide) (by decide)⟩

end Bot
